import Mathlib

/-!
# Verification of the Logistic-Hub-Frontend authentication module

A shallow embedding of `src/contexts/AuthContext.tsx`: the OAuth2.0
Authorization Code + PKCE flow of the single-page application.  Browser
storage (`localStorage`, `sessionStorage`) is modelled as records of
optional string values (a key maps to `none` when absent, mirroring
`getItem` returning `null`); the in-memory React session state is a third
record; the token-exchange `fetch` is modelled by an oracle value
describing its outcome; `Date.now()` is an explicit parameter in epoch
milliseconds.  Storage writes are modelled as always succeeding (the
source swallows storage exceptions best-effort).
-/

/-- The `OAUTH_CONFIG` object built from environment variables.  An unset
variable yields the empty string (the source applies `?? ''`). -/
structure OAuthConfig where
  authUrl : String
  tokenUrl : String
  clientId : String
  clientSecret : String
  scopes : String
  redirectUri : String
deriving DecidableEq

/-- Durable browser storage (`localStorage`) restricted to the keys the
module touches.  `none` models an absent key. -/
structure LocalStorage where
  access_token : Option String
  id_token : Option String
  refresh_token : Option String
  token_expiry : Option String
  oauth_state : Option String
deriving DecidableEq

/-- Session-scoped browser storage (`sessionStorage`) restricted to the
keys the module touches. -/
structure SessionStorage where
  pkce_verifier : Option String
  isLoggingIn : Option String
  justLoggedOut : Option String
deriving DecidableEq

/-- In-memory React session state of `AuthProvider`. -/
structure Session where
  isAuthenticated : Bool
  isLoading : Bool
  accessToken : Option String
deriving DecidableEq

/-- The whole mutable state visible to the auth module. -/
structure World where
  localStorage : LocalStorage
  sessionStorage : SessionStorage
  session : Session
deriving DecidableEq

/-- The JSON body of a successful token response (`TokenResponse` in the
source).  `refresh_token` is optional at runtime even though the
TypeScript interface declares it; `none` models `undefined`. -/
structure TokenResponse where
  access_token : String
  id_token : String
  refresh_token : Option String
  expires_in : Nat
  token_type : String
deriving DecidableEq

/-- Oracle describing the outcome of the token-exchange `fetch`:
the request may reject, return a non-ok response (whose body the code
logs), return an ok response whose JSON parsing throws, or return parsed
tokens. -/
inductive FetchOutcome where
  | fetchThrows : FetchOutcome
  | httpError : String → FetchOutcome
  | okJsonThrows : FetchOutcome
  | okTokens : TokenResponse → FetchOutcome
deriving DecidableEq

/-- A fetch outcome that does not deliver parsed tokens. -/
def FetchOutcome.failed : FetchOutcome → Bool
  | .okTokens _ => false
  | _ => true

/-- The token-exchange POST request body and credential header, as the
source assembles them. -/
structure TokenRequest where
  grant_type : String
  client_id : String
  code : String
  redirect_uri : String
  code_verifier : Option String
  basicAuth : Option String
deriving DecidableEq

/-- Result of one invocation of `handleAuthCallback`: the final state,
the POST request issued (if any), and the returned boolean. -/
structure CallbackResult where
  world : World
  request : Option TokenRequest
  result : Bool
deriving DecidableEq

/-- The function `truthy v` models JavaScript truthiness of a `string | null` value:
`null` and the empty string are falsy. -/
def truthy : Option String → Bool
  | none => false
  | some s => s ≠ ""

/-- Shallow embedding of `handleAuthCallback(code, state)`
(AuthContext.tsx lines 151–227).  `now` is `Date.now()` at the moment the
expiry is computed; `fetch` is the outcome of the POST to the token
endpoint (consulted only when the request is actually issued). -/
def handleAuthCallback (cfg : OAuthConfig) (w : World) (code state : String)
    (now : Nat) (fetch : FetchOutcome) : CallbackResult :=
  let savedState := w.localStorage.oauth_state
  if some state ≠ savedState then
    { world := { w with sessionStorage.isLoggingIn := none }
      request := none
      result := false }
  else
    let w := { w with localStorage.oauth_state := none }
    let verifierLookup : World × Option String :=
      match w.sessionStorage.pkce_verifier with
      | some v =>
          if v ≠ "" then ({ w with sessionStorage.pkce_verifier := none }, some v)
          else (w, none)
      | none => (w, none)
    let w := verifierLookup.1
    let req : TokenRequest :=
      { grant_type := "authorization_code"
        client_id := cfg.clientId
        code := code
        redirect_uri := cfg.redirectUri
        code_verifier := verifierLookup.2
        basicAuth :=
          if cfg.clientSecret ≠ "" then some (cfg.clientId ++ ":" ++ cfg.clientSecret)
          else none }
    match fetch with
    | .fetchThrows =>
        { world := { w with sessionStorage.isLoggingIn := none }
          request := some req
          result := false }
    | .httpError _ =>
        { world := { w with sessionStorage.isLoggingIn := none }
          request := some req
          result := false }
    | .okJsonThrows =>
        { world := { w with sessionStorage.isLoggingIn := none }
          request := some req
          result := false }
    | .okTokens tokens =>
        let refreshStored : Option String :=
          if truthy tokens.refresh_token then tokens.refresh_token
          else w.localStorage.refresh_token
        let expiryTime := now + tokens.expires_in * 1000
        { world :=
            { w with
              localStorage :=
                { w.localStorage with
                  access_token := some tokens.access_token
                  id_token := some tokens.id_token
                  refresh_token := refreshStored
                  token_expiry := some (Nat.repr expiryTime) }
              sessionStorage.isLoggingIn := none
              session :=
                { w.session with
                  isAuthenticated := true
                  accessToken := some tokens.access_token } }
          request := some req
          result := true }

/-- The base64 alphabet character for an index (`btoa`'s output
alphabet): 0–25 map to uppercase letters, 26–51 to lowercase letters,
52–61 to digits, 62 to `+`, 63 to `/`. -/
def b64Char (n : Nat) : Char :=
  if n < 26 then Char.ofNat (65 + n)
  else if n < 52 then Char.ofNat (97 + (n - 26))
  else if n < 62 then Char.ofNat (48 + (n - 52))
  else if n = 62 then '+'
  else '/'

/-- Model of `btoa` on a binary string whose character codes are the given bytes:
groups of three bytes become four alphabet characters; a trailing group
of one or two bytes is padded with `=`. -/
def btoaChunks : List Nat → List Char
  | [] => []
  | [b1] => [b64Char (b1 / 4), b64Char (b1 % 4 * 16), '=', '=']
  | [b1, b2] =>
      [b64Char (b1 / 4), b64Char (b1 % 4 * 16 + b2 / 16), b64Char (b2 % 16 * 4), '=']
  | b1 :: b2 :: b3 :: rest =>
      b64Char (b1 / 4) :: b64Char (b1 % 4 * 16 + b2 / 16) ::
      b64Char (b2 % 16 * 4 + b3 / 64) :: b64Char (b3 % 64) :: btoaChunks rest

/-- The two regex replacements `/\+/g → -` and `/\//g → _` applied to one
character. -/
def urlSafeChar (c : Char) : Char :=
  if c = '+' then '-' else if c = '/' then '_' else c

/-- The regex replacement `/=+$/g → ''`: remove the trailing run of `=`
padding characters. -/
def dropTrailingEq (cs : List Char) : List Char :=
  (cs.reverse.dropWhile (fun c => c = '=')).reverse

/-- Shallow embedding of `base64UrlEncode` (AuthContext.tsx lines 33–40)
on a byte list: `btoa`, then `+ → -`, `/ → _`, then strip `=` padding. -/
def base64UrlEncode (bytes : List Nat) : String :=
  String.mk (dropTrailingEq ((btoaChunks bytes).map urlSafeChar))

/-- Shallow embedding of `generateCodeVerifier` (AuthContext.tsx lines
42–46).  The 32 bytes produced by `crypto.getRandomValues` are passed in
as the `random` parameter. -/
def generateCodeVerifier (random : List Nat) : String :=
  base64UrlEncode random

/-- Membership in the unpadded base64url alphabet:
`A`–`Z`, `a`–`z`, `0`–`9`, `-`, `_`. -/
def isBase64UrlChar (c : Char) : Bool :=
  decide (65 ≤ c.toNat ∧ c.toNat ≤ 90) ||
  decide (97 ≤ c.toNat ∧ c.toNat ≤ 122) ||
  decide (48 ≤ c.toNat ∧ c.toNat ≤ 57) ||
  decide (c = '-') || decide (c = '_')

/-- The query parameters of the authorization URL `login` navigates to. -/
structure AuthRequest where
  response_type : String
  client_id : String
  redirect_uri : String
  scope : String
  state : String
  code_challenge : String
  code_challenge_method : String
deriving DecidableEq

/-- Result of one invocation of `login`: the final state and the
authorization request navigated to, if the navigation happened. -/
structure LoginResult where
  world : World
  navigatedTo : Option AuthRequest
deriving DecidableEq

/-- Shallow embedding of `login` (AuthContext.tsx lines 82–118).
`state` is the random CSRF value `Math.random().toString(36).substring(7)`,
`verifierBytes` the 32 random bytes behind `generateCodeVerifier`, and
`digest` the byte sequence of `await sha256(verifier)` (the hash itself
is treated as an oracle).  The source sets the `isLoggingIn` marker and
stores `oauth_state` before the async redirect-URI check runs. -/
def login (cfg : OAuthConfig) (w : World) (state : String)
    (verifierBytes digest : List Nat) : LoginResult :=
  let w := { w with
    sessionStorage.isLoggingIn := some "1"
    localStorage.oauth_state := some state }
  if cfg.redirectUri = "" then
    { world := { w with sessionStorage.isLoggingIn := none }, navigatedTo := none }
  else
    let verifier := generateCodeVerifier verifierBytes
    let w := { w with sessionStorage.pkce_verifier := some verifier }
    let challenge := base64UrlEncode digest
    { world := w
      navigatedTo := some
        { response_type := "code"
          client_id := cfg.clientId
          redirect_uri := cfg.redirectUri
          scope := cfg.scopes
          state := state
          code_challenge := challenge
          code_challenge_method := "S256" } }

/-- Model of JavaScript `parseInt(s, 10)` restricted to the inputs this
module produces: the longest leading run of decimal digits, `none` when
there is none (`NaN`).  The source only ever stores `token_expiry` as the
decimal rendering of a nonnegative integer; leading whitespace, signs and
fractional syntax are out of scope of the model. -/
def parseIntBase10 (s : String) : Option Nat :=
  let digits := s.data.takeWhile (fun c => c.isDigit)
  if digits.isEmpty then none
  else some (digits.foldl (fun acc c => acc * 10 + (c.toNat - 48)) 0)

/-- The initial React state of `AuthProvider`:
`useState(false)`, `useState(true)`, `useState(null)`. -/
def initialSession : Session :=
  { isAuthenticated := false, isLoading := true, accessToken := none }

/-- Result of the mount-time initialization effect. -/
structure InitResult where
  localStorage : LocalStorage
  session : Session
deriving DecidableEq

/-- The expired-token purge: remove all four token fields. -/
def purgeTokens (ls : LocalStorage) : LocalStorage :=
  { ls with
    access_token := none
    id_token := none
    refresh_token := none
    token_expiry := none }

/-- Shallow embedding of the mount-time `useEffect` of `AuthProvider`
(AuthContext.tsx lines 62–80): load the persisted token record, trust it
only when unexpired, purge it when expired, and always end with the
loading flag cleared.  `Date.now() < parseInt(tokenExpiry)` is false when
the parse yields `NaN`, so an unparsable expiry takes the purge branch. -/
def initializeAuth (ls : LocalStorage) (now : Nat) : InitResult :=
  let token := ls.access_token
  let tokenExpiry := ls.token_expiry
  let step : LocalStorage × Session :=
    if truthy token ∧ truthy tokenExpiry then
      let nowLtExpiry :=
        match tokenExpiry with
        | some s =>
            match parseIntBase10 s with
            | some expiryTime => decide (now < expiryTime)
            | none => false
        | none => false
      if nowLtExpiry then
        (ls, { initialSession with isAuthenticated := true, accessToken := token })
      else
        (purgeTokens ls, initialSession)
    else
      (ls, initialSession)
  { localStorage := step.1, session := { step.2 with isLoading := false } }

/-- Result of one run of the `ProtectedRoute` effect body
(`processCallback`): the session storage afterwards, the `hasRedirected`
flag afterwards, and which of the two delegations happened. -/
structure GuardResult where
  sessionStorage : SessionStorage
  hasRedirected : Bool
  loginInvoked : Bool
  callbackInvoked : Bool
deriving DecidableEq

/-- Shallow embedding of the decision logic of `processCallback` inside
`ProtectedRoute` (AuthContext.tsx lines 257–301).  `urlCode`/`urlState`
are `params.get('code')` / `params.get('state')`; the provider always
supplies `handleAuthCallback`, so its presence test is vacuous. -/
def processCallback (urlCode urlState : Option String)
    (isLoading isAuthenticated hasRedirected : Bool)
    (ss : SessionStorage) : GuardResult :=
  if truthy urlCode ∧ truthy urlState then
    { sessionStorage := ss
      hasRedirected := hasRedirected
      loginInvoked := false
      callbackInvoked := true }
  else if ¬isLoading ∧ ¬isAuthenticated ∧ ¬hasRedirected then
    if truthy ss.justLoggedOut then
      { sessionStorage := { ss with justLoggedOut := none }
        hasRedirected := true
        loginInvoked := false
        callbackInvoked := false }
    else if truthy ss.isLoggingIn then
      { sessionStorage := ss
        hasRedirected := true
        loginInvoked := false
        callbackInvoked := false }
    else
      { sessionStorage := ss
        hasRedirected := true
        loginInvoked := true
        callbackInvoked := false }
  else
    { sessionStorage := ss
      hasRedirected := hasRedirected
      loginInvoked := false
      callbackInvoked := false }

/-- A sample configuration used by the concrete witness instances
below: public client (no secret), redirect URI configured. -/
def cfgSample : OAuthConfig :=
  ⟨"https://auth.example", "https://token.example", "cid", "", "openid", "https://cb.example"⟩

/-- A sample in-memory session: loading finished, unauthenticated. -/
def sessSample : Session := ⟨false, false, none⟩

/-- A sample world holding CSRF state `"x"` and PKCE verifier `"v"`,
with the `isLoggingIn` marker set. -/
def wStateX : World :=
  ⟨⟨none, none, none, none, some "x"⟩, ⟨some "v", some "1", none⟩, sessSample⟩

/-- A sample world holding an old persisted token record, CSRF state
`"x"` and PKCE verifier `"v"`, with the `isLoggingIn` marker set. -/
def wOldTokens : World :=
  ⟨⟨some "OLD", none, none, some "7", some "x"⟩, ⟨some "v", some "1", none⟩, sessSample⟩

/-- C1: whenever the `state` argument does not equal the value stored
under `oauth_state` (including the case where no value is stored),
`handleAuthCallback` returns `false` and issues no token-exchange HTTP
request. -/
theorem handleAuthCallback_mismatch_aborts (cfg : OAuthConfig) (w : World)
    (code state : String) (now : Nat) (fetch : FetchOutcome)
    (h : w.localStorage.oauth_state ≠ some state) :
    (handleAuthCallback cfg w code state now fetch).result = false ∧
    (handleAuthCallback cfg w code state now fetch).request = none := by
  have h' : some state ≠ w.localStorage.oauth_state := fun hc => h hc.symm
  simp [handleAuthCallback, h']

/-- No base64 alphabet character is the padding character `=`. -/
theorem b64Char_ne_padEq : ∀ n, n < 64 → b64Char n ≠ '=' := by decide

/-- Every base64 alphabet character becomes a base64url alphabet
character after the `+ → -` and `/ → _` replacements. -/
theorem urlSafe_b64_mem : ∀ n, n < 64 → isBase64UrlChar (urlSafeChar (b64Char n)) = true := by
  decide

/-- A base64url alphabet character is never the padding character. -/
theorem isBase64UrlChar_ne_padEq {c : Char} (h : isBase64UrlChar c = true) : c ≠ '=' := by
  intro hc
  subst hc
  exact absurd h (by decide)

/-- The function `dropWhile` is the identity on a list on which the predicate never
holds. -/
theorem dropWhile_eq_self_of_all {p : Char → Bool} :
    ∀ l : List Char, (∀ c ∈ l, p c = false) → l.dropWhile p = l
  | [], _ => rfl
  | a :: l, h => by
      have ha := h a (List.mem_cons_self a l)
      simp [List.dropWhile_cons, ha]

/-- Stripping the trailing `=` run from `cs ++ ['=']` yields `cs` when no
character of `cs` is `=`. -/
theorem dropTrailingEq_append {cs : List Char} (h : ∀ c ∈ cs, c ≠ '=') :
    dropTrailingEq (cs ++ ['=']) = cs := by
  unfold dropTrailingEq
  rw [List.reverse_append]
  have hall : ∀ c ∈ cs.reverse, (fun c => decide (c = '=')) c = false := by
    intro c hc
    simp only [decide_eq_false_iff_not]
    exact h c (List.mem_reverse.mp hc)
  have : (['='].reverse ++ cs.reverse : List Char) = '=' :: cs.reverse := by simp
  rw [this]
  rw [List.dropWhile_cons]
  simp only [decide_True, if_true]
  rw [dropWhile_eq_self_of_all cs.reverse hall, List.reverse_reverse]

/-- Structure of `btoaChunks` on a byte list of length `3 k + 2`: the
output is `4 k + 3` alphabet characters followed by a single `=`. -/
theorem btoaChunks_len_mod3_eq2 :
    ∀ (k : Nat) (l : List Nat), l.length = 3 * k + 2 → (∀ b ∈ l, b < 256) →
    ∃ cs : List Char, btoaChunks l = cs ++ ['='] ∧ cs.length = 4 * k + 3 ∧
      ∀ c ∈ cs, ∃ n, n < 64 ∧ c = b64Char n := by
  intro k
  induction k with
  | zero =>
    intro l hlen hb
    match l with
    | [] => simp at hlen
    | [b1] => simp at hlen
    | b1 :: b2 :: rest =>
      have hr : rest.length = 0 := by
        simp only [List.length_cons] at hlen
        omega
      have hrnil : rest = [] := List.eq_nil_of_length_eq_zero hr
      subst hrnil
      have hb1 : b1 < 256 := hb b1 (by simp)
      have hb2 : b2 < 256 := hb b2 (by simp)
      refine ⟨[b64Char (b1 / 4), b64Char (b1 % 4 * 16 + b2 / 16), b64Char (b2 % 16 * 4)],
        rfl, rfl, ?_⟩
      intro c hc
      simp only [List.mem_cons, List.not_mem_nil, or_false] at hc
      rcases hc with rfl | rfl | rfl
      · exact ⟨b1 / 4, by omega, rfl⟩
      · exact ⟨b1 % 4 * 16 + b2 / 16, by omega, rfl⟩
      · exact ⟨b2 % 16 * 4, by omega, rfl⟩
  | succ k ih =>
    intro l hlen hb
    match l with
    | [] => simp at hlen
    | [b1] => simp at hlen
    | [b1, b2] => simp at hlen
    | b1 :: b2 :: b3 :: rest =>
      have hrest : rest.length = 3 * k + 2 := by
        simp only [List.length_cons] at hlen
        omega
      obtain ⟨cs, hcs, hlen', hmem⟩ :=
        ih rest hrest (fun b hbm => hb b (by simp [hbm]))
      have hb1 : b1 < 256 := hb b1 (by simp)
      have hb2 : b2 < 256 := hb b2 (by simp)
      have hb3 : b3 < 256 := hb b3 (by simp)
      refine ⟨b64Char (b1 / 4) :: b64Char (b1 % 4 * 16 + b2 / 16) ::
        b64Char (b2 % 16 * 4 + b3 / 64) :: b64Char (b3 % 64) :: cs, ?_, ?_, ?_⟩
      · show btoaChunks (b1 :: b2 :: b3 :: rest) = _
        rw [btoaChunks, hcs]
        simp
      · simp only [List.length_cons, hlen']
        omega
      · intro c hc
        simp only [List.mem_cons] at hc
        rcases hc with rfl | rfl | rfl | rfl | hc
        · exact ⟨b1 / 4, by omega, rfl⟩
        · exact ⟨b1 % 4 * 16 + b2 / 16, by omega, rfl⟩
        · exact ⟨b2 % 16 * 4 + b3 / 64, by omega, rfl⟩
        · exact ⟨b3 % 64, by omega, rfl⟩
        · exact hmem c hc

/-- C9: `generateCodeVerifier` on its 32 random input bytes always
returns a string of exactly 43 characters, every one drawn from the
base64url alphabet (so without padding), satisfying the PKCE 43–128
character requirement. -/
theorem generateCodeVerifier_spec (random : List Nat)
    (hlen : random.length = 32) (hb : ∀ b ∈ random, b < 256) :
    (generateCodeVerifier random).length = 43 ∧
    ∀ c ∈ (generateCodeVerifier random).data, isBase64UrlChar c = true := by
  have h32 : random.length = 3 * 10 + 2 := by omega
  obtain ⟨cs, hcs, hlen', hmem⟩ := btoaChunks_len_mod3_eq2 10 random h32 hb
  have hmap : (btoaChunks random).map urlSafeChar = cs.map urlSafeChar ++ ['='] := by
    rw [hcs, List.map_append]
    rfl
  have hmemmap : ∀ c ∈ cs.map urlSafeChar, isBase64UrlChar c = true := by
    intro c hc
    obtain ⟨c', hc', rfl⟩ := List.mem_map.mp hc
    obtain ⟨n, hn, rfl⟩ := hmem c' hc'
    exact urlSafe_b64_mem n hn
  have hne : ∀ c ∈ cs.map urlSafeChar, c ≠ '=' :=
    fun c hc => isBase64UrlChar_ne_padEq (hmemmap c hc)
  have hdrop : dropTrailingEq ((btoaChunks random).map urlSafeChar) = cs.map urlSafeChar := by
    rw [hmap]
    exact dropTrailingEq_append hne
  constructor
  · show (String.mk (dropTrailingEq ((btoaChunks random).map urlSafeChar))).length = 43
    rw [hdrop]
    simp [String.length, hlen']
  · intro c hc
    simp only [generateCodeVerifier, base64UrlEncode, hdrop] at hc
    exact hmemmap c hc

/-- Witness for C9 at the all-zero 32-byte input. -/
theorem generateCodeVerifier_spec_witness :
    (List.replicate 32 0).length = 32 ∧
    ((generateCodeVerifier (List.replicate 32 0)).length = 43 ∧
      ∀ c ∈ (generateCodeVerifier (List.replicate 32 0)).data, isBase64UrlChar c = true) :=
  ⟨by decide, generateCodeVerifier_spec (List.replicate 32 0) (by decide)
    (fun b hbm => by rw [List.eq_of_mem_replicate hbm]; decide)⟩


/-- Witness for C1: stored state `"x"`, supplied state `"y"`. -/
theorem handleAuthCallback_mismatch_aborts_witness :
    wStateX.localStorage.oauth_state ≠ some "y" ∧
    ((handleAuthCallback cfgSample wStateX "authcode" "y" 0 .fetchThrows).result = false ∧
      (handleAuthCallback cfgSample wStateX "authcode" "y" 0 .fetchThrows).request = none) :=
  ⟨by decide, handleAuthCallback_mismatch_aborts cfgSample wStateX "authcode" "y" 0
    .fetchThrows (by decide)⟩

/-- Counterexample to C2 as stated: an invocation that completes with a
state mismatch (stored `"x"`, supplied `"y"`) leaves both the CSRF state
token and the PKCE verifier in storage. -/
theorem handleAuthCallback_mismatch_keeps_secrets :
    (handleAuthCallback cfgSample wStateX "authcode" "y" 0
        .fetchThrows).world.localStorage.oauth_state = some "x" ∧
    (handleAuthCallback cfgSample wStateX "authcode" "y" 0
        .fetchThrows).world.sessionStorage.pkce_verifier = some "v" := by
  constructor <;> decide

/-- C2 (amended): after an invocation of `handleAuthCallback` in which
the supplied `state` matches the stored CSRF token — and the stored PKCE
verifier, if any, is not the empty string — neither the PKCE verifier nor
the CSRF state token remains in storage, whatever the fetch outcome. -/
theorem handleAuthCallback_match_clears_secrets (cfg : OAuthConfig) (w : World)
    (code state : String) (now : Nat) (fetch : FetchOutcome)
    (hmatch : w.localStorage.oauth_state = some state)
    (hv : w.sessionStorage.pkce_verifier ≠ some "") :
    (handleAuthCallback cfg w code state now fetch).world.localStorage.oauth_state = none ∧
    (handleAuthCallback cfg w code state now fetch).world.sessionStorage.pkce_verifier
      = none := by
  rcases hpv : w.sessionStorage.pkce_verifier with _ | v
  · cases fetch <;> simp [handleAuthCallback, hmatch, hpv]
  · have hv' : v ≠ "" := fun h => hv (by rw [hpv, h])
    cases fetch <;> simp [handleAuthCallback, hmatch, hpv, hv']

/-- Witness for the amended C2: matching state `"x"`, verifier `"v"`. -/
theorem handleAuthCallback_match_clears_secrets_witness :
    wStateX.localStorage.oauth_state = some "x" ∧
    ((handleAuthCallback cfgSample wStateX "authcode" "x" 0
        .okJsonThrows).world.localStorage.oauth_state = none ∧
      (handleAuthCallback cfgSample wStateX "authcode" "x" 0
        .okJsonThrows).world.sessionStorage.pkce_verifier = none) :=
  ⟨by decide, handleAuthCallback_match_clears_secrets cfgSample wStateX "authcode" "x" 0
    .okJsonThrows (by decide) (by decide)⟩

/-- C3: when the token-exchange POST returns a non-success response, or
the request or its JSON parsing throws, `handleAuthCallback` returns
`false` and leaves the in-memory session state and all four persisted
token fields exactly as they were. -/
theorem handleAuthCallback_failure_preserves (cfg : OAuthConfig) (w : World)
    (code state : String) (now : Nat) (fetch : FetchOutcome)
    (hf : fetch.failed = true) :
    (handleAuthCallback cfg w code state now fetch).result = false ∧
    (handleAuthCallback cfg w code state now fetch).world.localStorage.access_token
      = w.localStorage.access_token ∧
    (handleAuthCallback cfg w code state now fetch).world.localStorage.id_token
      = w.localStorage.id_token ∧
    (handleAuthCallback cfg w code state now fetch).world.localStorage.refresh_token
      = w.localStorage.refresh_token ∧
    (handleAuthCallback cfg w code state now fetch).world.localStorage.token_expiry
      = w.localStorage.token_expiry ∧
    (handleAuthCallback cfg w code state now fetch).world.session = w.session := by
  by_cases hm : some state ≠ w.localStorage.oauth_state
  · cases fetch <;> simp [handleAuthCallback, hm]
  · rcases hpv : w.sessionStorage.pkce_verifier with _ | v
    · cases fetch with
      | okTokens t => simp [FetchOutcome.failed] at hf
      | fetchThrows => simp [handleAuthCallback, hm, hpv]
      | httpError body => simp [handleAuthCallback, hm, hpv]
      | okJsonThrows => simp [handleAuthCallback, hm, hpv]
    · by_cases hv : v = ""
      · cases fetch with
        | okTokens t => simp [FetchOutcome.failed] at hf
        | fetchThrows => simp [handleAuthCallback, hm, hpv, hv]
        | httpError body => simp [handleAuthCallback, hm, hpv, hv]
        | okJsonThrows => simp [handleAuthCallback, hm, hpv, hv]
      · cases fetch with
        | okTokens t => simp [FetchOutcome.failed] at hf
        | fetchThrows => simp [handleAuthCallback, hm, hpv, hv]
        | httpError body => simp [handleAuthCallback, hm, hpv, hv]
        | okJsonThrows => simp [handleAuthCallback, hm, hpv, hv]

/-- Witness for C3: matching state, HTTP error response with body
`"bad"`; the old persisted record and session survive untouched. -/
theorem handleAuthCallback_failure_preserves_witness :
    (FetchOutcome.httpError "bad").failed = true ∧
    ((handleAuthCallback cfgSample wOldTokens "authcode" "x" 0 (.httpError "bad")).result
        = false ∧
      (handleAuthCallback cfgSample wOldTokens "authcode" "x" 0
        (.httpError "bad")).world.localStorage.access_token = wOldTokens.localStorage.access_token ∧
      (handleAuthCallback cfgSample wOldTokens "authcode" "x" 0
        (.httpError "bad")).world.localStorage.id_token = wOldTokens.localStorage.id_token ∧
      (handleAuthCallback cfgSample wOldTokens "authcode" "x" 0
        (.httpError "bad")).world.localStorage.refresh_token = wOldTokens.localStorage.refresh_token ∧
      (handleAuthCallback cfgSample wOldTokens "authcode" "x" 0
        (.httpError "bad")).world.localStorage.token_expiry = wOldTokens.localStorage.token_expiry ∧
      (handleAuthCallback cfgSample wOldTokens "authcode" "x" 0
        (.httpError "bad")).world.session = wOldTokens.session) :=
  ⟨by decide, handleAuthCallback_failure_preserves cfgSample wOldTokens "authcode" "x" 0
    (.httpError "bad") (by decide)⟩

/-- C4: on every exit path of `handleAuthCallback` — success, state
mismatch, non-success HTTP response, or a throw during the network call —
the `isLoggingIn` session-scoped marker is cleared before the function
returns. -/
theorem handleAuthCallback_clears_isLoggingIn (cfg : OAuthConfig) (w : World)
    (code state : String) (now : Nat) (fetch : FetchOutcome) :
    (handleAuthCallback cfg w code state now fetch).world.sessionStorage.isLoggingIn
      = none := by
  by_cases hm : some state ≠ w.localStorage.oauth_state
  · cases fetch <;> simp [handleAuthCallback, hm]
  · rcases hpv : w.sessionStorage.pkce_verifier with _ | v
    · cases fetch <;> simp [handleAuthCallback, hm, hpv]
    · by_cases hv : v = "" <;> cases fetch <;> simp [handleAuthCallback, hm, hpv, hv]

/-- C5: on success (matching state, ok response carrying tokens),
`handleAuthCallback` stores `access_token` and `id_token`, stores
`refresh_token` exactly when the response carries a (truthy) one, stores
`token_expiry` as the absolute epoch-millisecond value
`now + expires_in * 1000`, marks the session authenticated with the
returned access token, and returns `true`. -/
theorem handleAuthCallback_success_stores (cfg : OAuthConfig) (w : World)
    (code state : String) (now : Nat) (t : TokenResponse)
    (hmatch : w.localStorage.oauth_state = some state) :
    (handleAuthCallback cfg w code state now (.okTokens t)).result = true ∧
    (handleAuthCallback cfg w code state now (.okTokens t)).world.localStorage.access_token
      = some t.access_token ∧
    (handleAuthCallback cfg w code state now (.okTokens t)).world.localStorage.id_token
      = some t.id_token ∧
    (handleAuthCallback cfg w code state now (.okTokens t)).world.localStorage.token_expiry
      = some (Nat.repr (now + t.expires_in * 1000)) ∧
    (truthy t.refresh_token = true →
      (handleAuthCallback cfg w code state now (.okTokens t)).world.localStorage.refresh_token
        = t.refresh_token) ∧
    (truthy t.refresh_token = false →
      (handleAuthCallback cfg w code state now (.okTokens t)).world.localStorage.refresh_token
        = w.localStorage.refresh_token) ∧
    (handleAuthCallback cfg w code state now (.okTokens t)).world.session.isAuthenticated
      = true ∧
    (handleAuthCallback cfg w code state now (.okTokens t)).world.session.accessToken
      = some t.access_token := by
  rcases hpv : w.sessionStorage.pkce_verifier with _ | v
  · by_cases hr : truthy t.refresh_token <;>
      simp [handleAuthCallback, hmatch, hpv, hr]
  · by_cases hv : v = "" <;> by_cases hr : truthy t.refresh_token <;>
      simp [handleAuthCallback, hmatch, hpv, hv, hr]

/-- Witness for C5: matching state `"x"`, response
`{access_token := "A", id_token := "I", refresh_token := "R",
expires_in := 3600}` at `now = 1000`. -/
theorem handleAuthCallback_success_stores_witness :
    wStateX.localStorage.oauth_state = some "x" ∧
    ((handleAuthCallback cfgSample wStateX "authcode" "x" 1000
        (.okTokens ⟨"A", "I", some "R", 3600, "Bearer"⟩)).result = true ∧
      (handleAuthCallback cfgSample wStateX "authcode" "x" 1000
        (.okTokens ⟨"A", "I", some "R", 3600, "Bearer"⟩)).world.localStorage.access_token
        = some "A" ∧
      (handleAuthCallback cfgSample wStateX "authcode" "x" 1000
        (.okTokens ⟨"A", "I", some "R", 3600, "Bearer"⟩)).world.localStorage.id_token
        = some "I" ∧
      (handleAuthCallback cfgSample wStateX "authcode" "x" 1000
        (.okTokens ⟨"A", "I", some "R", 3600, "Bearer"⟩)).world.localStorage.token_expiry
        = some (Nat.repr (1000 + 3600 * 1000)) ∧
      (truthy (some "R") = true →
        (handleAuthCallback cfgSample wStateX "authcode" "x" 1000
          (.okTokens ⟨"A", "I", some "R", 3600, "Bearer"⟩)).world.localStorage.refresh_token
          = some "R") ∧
      (truthy (some "R") = false →
        (handleAuthCallback cfgSample wStateX "authcode" "x" 1000
          (.okTokens ⟨"A", "I", some "R", 3600, "Bearer"⟩)).world.localStorage.refresh_token
          = wStateX.localStorage.refresh_token) ∧
      (handleAuthCallback cfgSample wStateX "authcode" "x" 1000
        (.okTokens ⟨"A", "I", some "R", 3600, "Bearer"⟩)).world.session.isAuthenticated
        = true ∧
      (handleAuthCallback cfgSample wStateX "authcode" "x" 1000
        (.okTokens ⟨"A", "I", some "R", 3600, "Bearer"⟩)).world.session.accessToken
        = some "A") :=
  ⟨by decide, handleAuthCallback_success_stores cfgSample wStateX "authcode" "x" 1000
    ⟨"A", "I", some "R", 3600, "Bearer"⟩ (by decide)⟩

/-- A successful `parseInt` model result implies a nonempty input. -/
theorem parseIntBase10_ne_empty {s : String} {e : Nat}
    (hp : parseIntBase10 s = some e) : s ≠ "" := by
  intro h
  subst h
  simp [parseIntBase10] at hp

/-- C6: a persisted token record (nonempty stored access token) whose
expiry is at or before the current time is never loaded into an
authenticated session, and the initialization purges all four token
fields from durable storage. -/
theorem initializeAuth_purges_expired (ls : LocalStorage) (now e : Nat)
    (t s : String)
    (ht : ls.access_token = some t) (htne : t ≠ "")
    (hs : ls.token_expiry = some s) (hp : parseIntBase10 s = some e)
    (he : e ≤ now) :
    (initializeAuth ls now).session.isAuthenticated = false ∧
    (initializeAuth ls now).session.accessToken = none ∧
    (initializeAuth ls now).localStorage.access_token = none ∧
    (initializeAuth ls now).localStorage.id_token = none ∧
    (initializeAuth ls now).localStorage.refresh_token = none ∧
    (initializeAuth ls now).localStorage.token_expiry = none := by
  have hsne : s ≠ "" := parseIntBase10_ne_empty hp
  have hlt : ¬ now < e := Nat.not_lt.mpr he
  simp [initializeAuth, ht, hs, truthy, htne, hsne, hp, hlt, purgeTokens, initialSession]

/-- Witness for C6: record `access_token = "A"`, `token_expiry = "100"`,
checked at `now = 100`. -/
theorem initializeAuth_purges_expired_witness :
    ((⟨some "A", some "I", some "R", some "100", none⟩ : LocalStorage).access_token
        = some "A" ∧
      parseIntBase10 "100" = some 100 ∧ (100 : Nat) ≤ 100) ∧
    ((initializeAuth ⟨some "A", some "I", some "R", some "100", none⟩
        100).session.isAuthenticated = false ∧
      (initializeAuth ⟨some "A", some "I", some "R", some "100", none⟩
        100).session.accessToken = none ∧
      (initializeAuth ⟨some "A", some "I", some "R", some "100", none⟩
        100).localStorage.access_token = none ∧
      (initializeAuth ⟨some "A", some "I", some "R", some "100", none⟩
        100).localStorage.id_token = none ∧
      (initializeAuth ⟨some "A", some "I", some "R", some "100", none⟩
        100).localStorage.refresh_token = none ∧
      (initializeAuth ⟨some "A", some "I", some "R", some "100", none⟩
        100).localStorage.token_expiry = none) :=
  ⟨⟨by decide, by decide, by decide⟩,
    initializeAuth_purges_expired ⟨some "A", some "I", some "R", some "100", none⟩
      100 100 "A" "100" (by decide) (by decide) (by decide) (by decide) (by decide)⟩

/-- Counterexample to C7 as stated: with the redirect URI absent,
`login` does abort without navigating, but the CSRF state token (written
before the redirect-URI check) is persisted. -/
theorem login_missing_redirect_persists_state :
    (login ⟨"https://auth.example", "https://token.example", "cid", "", "openid", ""⟩
        ⟨⟨none, none, none, none, none⟩, ⟨none, none, none⟩, ⟨false, true, none⟩⟩
        "st" [] []).world.localStorage.oauth_state = some "st" ∧
    (login ⟨"https://auth.example", "https://token.example", "cid", "", "openid", ""⟩
        ⟨⟨none, none, none, none, none⟩, ⟨none, none, none⟩, ⟨false, true, none⟩⟩
        "st" [] []).navigatedTo = none := by
  constructor <;> decide

/-- C7 (amended): when the configured redirect URI is absent, `login`
aborts without navigating to the authorization endpoint, clears the
`isLoggingIn` marker, and persists no PKCE verifier — but the CSRF state
token is persisted before the check and remains in durable storage. -/
theorem login_missing_redirect_aborts (cfg : OAuthConfig) (w : World)
    (state : String) (verifierBytes digest : List Nat)
    (h : cfg.redirectUri = "") :
    (login cfg w state verifierBytes digest).navigatedTo = none ∧
    (login cfg w state verifierBytes digest).world.sessionStorage.isLoggingIn = none ∧
    (login cfg w state verifierBytes digest).world.sessionStorage.pkce_verifier
      = w.sessionStorage.pkce_verifier ∧
    (login cfg w state verifierBytes digest).world.localStorage.oauth_state
      = some state := by
  simp [login, h]

/-- Witness for the amended C7 at a concrete unconfigured client. -/
theorem login_missing_redirect_aborts_witness :
    (OAuthConfig.redirectUri
        ⟨"https://auth.example", "https://token.example", "cid", "", "openid", ""⟩ = "") ∧
    ((login ⟨"https://auth.example", "https://token.example", "cid", "", "openid", ""⟩
        ⟨⟨none, none, none, none, none⟩, ⟨none, none, none⟩, ⟨false, true, none⟩⟩
        "st" [] []).navigatedTo = none ∧
      (login ⟨"https://auth.example", "https://token.example", "cid", "", "openid", ""⟩
        ⟨⟨none, none, none, none, none⟩, ⟨none, none, none⟩, ⟨false, true, none⟩⟩
        "st" [] []).world.sessionStorage.isLoggingIn = none ∧
      (login ⟨"https://auth.example", "https://token.example", "cid", "", "openid", ""⟩
        ⟨⟨none, none, none, none, none⟩, ⟨none, none, none⟩, ⟨false, true, none⟩⟩
        "st" [] []).world.sessionStorage.pkce_verifier = none ∧
      (login ⟨"https://auth.example", "https://token.example", "cid", "", "openid", ""⟩
        ⟨⟨none, none, none, none, none⟩, ⟨none, none, none⟩, ⟨false, true, none⟩⟩
        "st" [] []).world.localStorage.oauth_state = some "st") :=
  ⟨by decide, login_missing_redirect_aborts
    ⟨"https://auth.example", "https://token.example", "cid", "", "openid", ""⟩
    ⟨⟨none, none, none, none, none⟩, ⟨none, none, none⟩, ⟨false, true, none⟩⟩
    "st" [] [] (by decide)⟩

/-- C8: on a guard run with no `code`/`state` URL parameters, loading
finished, unauthenticated, and no redirect yet this render cycle: a set
`justLoggedOut` marker is consumed and suppresses `login()`; otherwise a
set `isLoggingIn` marker suppresses `login()`; `login()` is invoked
exactly when neither marker is set. -/
theorem processCallback_login_gating (ss : SessionStorage) :
    (truthy ss.justLoggedOut = true →
      (processCallback none none false false false ss).sessionStorage.justLoggedOut
        = none ∧
      (processCallback none none false false false ss).loginInvoked = false) ∧
    (truthy ss.justLoggedOut = false → truthy ss.isLoggingIn = true →
      (processCallback none none false false false ss).loginInvoked = false) ∧
    ((processCallback none none false false false ss).loginInvoked = true ↔
      truthy ss.justLoggedOut = false ∧ truthy ss.isLoggingIn = false) := by
  rcases hjl : ss.justLoggedOut with _ | jl
  · rcases hil : ss.isLoggingIn with _ | il
    · simp [processCallback, truthy, hjl, hil]
    · by_cases h : il = "" <;> simp [processCallback, truthy, hjl, hil, h]
  · by_cases h : jl = ""
    · rcases hil : ss.isLoggingIn with _ | il
      · simp [processCallback, truthy, hjl, hil, h]
      · by_cases h2 : il = "" <;> simp [processCallback, truthy, hjl, hil, h, h2]
    · simp [processCallback, truthy, hjl, h]

/-- Witness for C8: with `justLoggedOut` set it is consumed and `login`
is not invoked; with only `isLoggingIn` set `login` is not invoked. -/
theorem processCallback_login_gating_witness :
    ((processCallback none none false false false
        ⟨none, none, some "1"⟩).sessionStorage.justLoggedOut = none ∧
      (processCallback none none false false false
        ⟨none, none, some "1"⟩).loginInvoked = false) ∧
    (processCallback none none false false false
        ⟨none, some "1", none⟩).loginInvoked = false :=
  ⟨(processCallback_login_gating ⟨none, none, some "1"⟩).1 (by decide),
    (processCallback_login_gating ⟨none, some "1", none⟩).2.1 (by decide) (by decide)⟩

/-- C10: when durable storage holds a partial token record —
`access_token` present but `token_expiry` absent, or vice versa — the
mount-time initialization ends unauthenticated with the loading flag
cleared and removes nothing from storage, so the residual fields
persist. -/
theorem initializeAuth_partial_record (ls : LocalStorage) (now : Nat)
    (h : (ls.access_token ≠ none ∧ ls.token_expiry = none) ∨
         (ls.access_token = none ∧ ls.token_expiry ≠ none)) :
    (initializeAuth ls now).session.isAuthenticated = false ∧
    (initializeAuth ls now).session.isLoading = false ∧
    (initializeAuth ls now).session.accessToken = none ∧
    (initializeAuth ls now).localStorage = ls := by
  rcases h with ⟨_, h2⟩ | ⟨h1, _⟩
  · simp [initializeAuth, h2, truthy, initialSession]
  · simp [initializeAuth, h1, truthy, initialSession]

/-- Witness for C10: `access_token = "A"` with no `token_expiry`. -/
theorem initializeAuth_partial_record_witness :
    ((⟨some "A", some "I", none, none, none⟩ : LocalStorage).access_token ≠ none ∧
      (⟨some "A", some "I", none, none, none⟩ : LocalStorage).token_expiry = none) ∧
    ((initializeAuth ⟨some "A", some "I", none, none, none⟩
        0).session.isAuthenticated = false ∧
      (initializeAuth ⟨some "A", some "I", none, none, none⟩
        0).session.isLoading = false ∧
      (initializeAuth ⟨some "A", some "I", none, none, none⟩
        0).session.accessToken = none ∧
      (initializeAuth ⟨some "A", some "I", none, none, none⟩
        0).localStorage = ⟨some "A", some "I", none, none, none⟩) :=
  ⟨⟨by decide, by decide⟩,
    initializeAuth_partial_record ⟨some "A", some "I", none, none, none⟩ 0
      (Or.inl ⟨by decide, by decide⟩)⟩
